import Mathlib

/-!
Verification of the rust-geom geometry library: a shallow embedding of its
rectangle, numeric-trait and 4x4-matrix layers, with theorems settling the
specified properties.  Float-generic code is embedded over exact arithmetic
(`ℚ`); integer-generic rectangle code is embedded generically over a linear
order with group structure and instantiated at `ℤ`.
-/

namespace Geom

/-- Point2D from src/point.rs: an ordered pair of scalar coordinates. -/
structure Point2D (α : Type) where
  x : α
  y : α
deriving DecidableEq, Repr

/-- Modelled from the spec: size.rs is not under src/.  `Size2D` is a
width/height pair of scalars (spec §3). -/
structure Size2D (α : Type) where
  width : α
  height : α
deriving DecidableEq, Repr

/-- Rect from src/src/rect.rs: an origin point plus a size. -/
structure Rect (α : Type) where
  origin : Point2D α
  size : Size2D α
deriving DecidableEq, Repr

variable {α : Type}

/-- Free function `min` from src/src/rect.rs: `if x <= y { x } else { y }`. -/
def min [LinearOrder α] (x y : α) : α :=
  if x ≤ y then x else y

/-- Free function `max` from src/src/rect.rs: `if x >= y { x } else { y }`. -/
def max [LinearOrder α] (x y : α) : α :=
  if x ≥ y then x else y

/-- `Rect::max_x` from src/src/rect.rs. -/
def Rect.max_x [Add α] (self : Rect α) : α :=
  self.origin.x + self.size.width

/-- `Rect::min_x` from src/src/rect.rs. -/
def Rect.min_x (self : Rect α) : α :=
  self.origin.x

/-- `Rect::max_y` from src/src/rect.rs. -/
def Rect.max_y [Add α] (self : Rect α) : α :=
  self.origin.y + self.size.height

/-- `Rect::min_y` from src/src/rect.rs. -/
def Rect.min_y (self : Rect α) : α :=
  self.origin.y

/-- `Rect::intersects` from src/src/rect.rs: four strict comparisons. -/
def Rect.intersects [LinearOrder α] [Add α] (self other : Rect α) : Bool :=
  decide (self.origin.x < other.origin.x + other.size.width) &&
  decide (other.origin.x < self.origin.x + self.size.width) &&
  decide (self.origin.y < other.origin.y + other.size.height) &&
  decide (other.origin.y < self.origin.y + self.size.height)

/-- `Rect::intersection` from src/src/rect.rs. -/
def Rect.intersection [LinearOrder α] [Add α] [Sub α] (self other : Rect α) :
    Option (Rect α) :=
  if ! self.intersects other then none else
  let upper_left : Point2D α :=
    ⟨ max self.min_x other.min_x, max self.min_y other.min_y⟩
  let lower_right : Point2D α :=
    ⟨ min self.max_x other.max_x, min self.max_y other.max_y⟩
  some ⟨upper_left, ⟨lower_right.x - upper_left.x, lower_right.y - upper_left.y⟩⟩

/-- `Rect::union` from src/src/rect.rs. -/
def Rect.union [LinearOrder α] [Add α] [Sub α] (self other : Rect α) : Rect α :=
  let upper_left : Point2D α :=
    ⟨ min self.min_x other.min_x, min self.min_y other.min_y⟩
  let lower_right : Point2D α :=
    ⟨ max self.max_x other.max_x, max self.max_y other.max_y⟩
  ⟨upper_left, ⟨lower_right.x - upper_left.x, lower_right.y - upper_left.y⟩⟩

/-- The source `min` agrees with the order-theoretic minimum. -/
theorem min_eq_inf [LinearOrder α] (x y : α) : min x y = Min.min x y := by
  unfold min
  rcases le_total x y with h | h
  · simp [h]
  · rcases eq_or_lt_of_le h with h' | h'
    · simp [h', le_of_eq h'.symm]
    · simp [not_le_of_lt h', le_of_lt h']

/-- The source `max` agrees with the order-theoretic maximum. -/
theorem max_eq_sup [LinearOrder α] (x y : α) : max x y = Max.max x y := by
  unfold max
  rcases le_total y x with h | h
  · simp [h]
  · rcases eq_or_lt_of_le h with h' | h'
    · simp [h', le_of_eq h'.symm]
    · simp [not_le_of_lt h', le_of_lt h']

/-- Matrix4 from src/src/matrix.rs: sixteen named scalar fields in row-major
logical order. -/
structure Matrix4 (α : Type) where
  m11 : α
  m12 : α
  m13 : α
  m14 : α
  m21 : α
  m22 : α
  m23 : α
  m24 : α
  m31 : α
  m32 : α
  m33 : α
  m34 : α
  m41 : α
  m42 : α
  m43 : α
  m44 : α
deriving DecidableEq, Repr

/-- `Matrix4::mul` from src/src/matrix.rs, transliterated entry for entry
(`self.mul(&m)`). -/
def Matrix4.mul [Add α] [Mul α] (self m : Matrix4 α) : Matrix4 α :=
  ⟨ m.m11*self.m11 + m.m12*self.m21 + m.m13*self.m31 + m.m14*self.m41,
    m.m11*self.m12 + m.m12*self.m22 + m.m13*self.m32 + m.m14*self.m42,
    m.m11*self.m13 + m.m12*self.m23 + m.m13*self.m33 + m.m14*self.m43,
    m.m11*self.m14 + m.m12*self.m24 + m.m13*self.m34 + m.m14*self.m44,
    m.m21*self.m11 + m.m22*self.m21 + m.m23*self.m31 + m.m24*self.m41,
    m.m21*self.m12 + m.m22*self.m22 + m.m23*self.m32 + m.m24*self.m42,
    m.m21*self.m13 + m.m22*self.m23 + m.m23*self.m33 + m.m24*self.m43,
    m.m21*self.m14 + m.m22*self.m24 + m.m23*self.m34 + m.m24*self.m44,
    m.m31*self.m11 + m.m32*self.m21 + m.m33*self.m31 + m.m34*self.m41,
    m.m31*self.m12 + m.m32*self.m22 + m.m33*self.m32 + m.m34*self.m42,
    m.m31*self.m13 + m.m32*self.m23 + m.m33*self.m33 + m.m34*self.m43,
    m.m31*self.m14 + m.m32*self.m24 + m.m33*self.m34 + m.m34*self.m44,
    m.m41*self.m11 + m.m42*self.m21 + m.m43*self.m31 + m.m44*self.m41,
    m.m41*self.m12 + m.m42*self.m22 + m.m43*self.m32 + m.m44*self.m42,
    m.m41*self.m13 + m.m42*self.m23 + m.m43*self.m33 + m.m44*self.m43,
    m.m41*self.m14 + m.m42*self.m24 + m.m43*self.m34 + m.m44*self.m44⟩

/-- `Matrix4::transform_point` from src/src/matrix.rs: affine 2D sub-block. -/
def Matrix4.transform_point [Add α] [Mul α] (self : Matrix4 α)
    (p : Point2D α) : Point2D α :=
  ⟨ p.x * self.m11 + p.y * self.m21 + self.m41,
    p.x * self.m12 + p.y * self.m22 + self.m42⟩

/-- `Matrix4::scale` from src/src/matrix.rs: multiplies the three diagonal
entries m11, m22, m33 by x, y, z and clones every other field. -/
def Matrix4.scale [Mul α] (self : Matrix4 α) (x y z : α) : Matrix4 α :=
  ⟨ self.m11 * x, self.m12,     self.m13,     self.m14,
    self.m21,     self.m22 * y, self.m23,     self.m24,
    self.m31,     self.m32,     self.m33 * z, self.m34,
    self.m41,     self.m42,     self.m43,     self.m44⟩

/-- `Matrix4::create_translation` from src/src/matrix.rs. -/
def Matrix4.create_translation [Zero α] [One α] (x y z : α) : Matrix4 α :=
  ⟨ 1, 0, 0, 0,
    0, 1, 0, 0,
    0, 0, 1, 0,
    x, y, z, 1⟩

/-- `Matrix4::create_scale` from src/src/matrix.rs. -/
def Matrix4.create_scale [Zero α] [One α] (x y z : α) : Matrix4 α :=
  ⟨ x, 0, 0, 0,
    0, y, 0, 0,
    0, 0, z, 0,
    0, 0, 0, 1⟩

/-- Free function `identity` from src/src/matrix.rs. -/
def identity [Zero α] [One α] : Matrix4 α :=
  ⟨ 1, 0, 0, 0,
    0, 1, 0, 0,
    0, 0, 1, 0,
    0, 0, 0, 1⟩

/-- Free function `ortho` from src/src/matrix.rs, over a field. -/
def ortho [Field α] (left right bottom top near far : α) : Matrix4 α :=
  let _2 : α := 2
  let tx := -((right + left) / (right - left))
  let ty := -((top + bottom) / (top - bottom))
  let tz := -((far + near) / (far - near))
  ⟨ _2 / (right - left), 0,                   0,                  0,
    0,                   _2 / (top - bottom), 0,                  0,
    0,                   0,                   -_2 / (far - near), 0,
    tx,                  ty,                  tz,                 1⟩

/-- Modelled from the spec: approxeq.rs is not under src/.  Spec §4.1 says
scalar approximate equality holds when the absolute difference is within a
fixed small epsilon, e.g. 1e-5 for the default floating instantiation;
floats are embedded as rationals. -/
def approx_eq (a b : ℚ) : Bool :=
  decide (|a - b| < 1 / 100000)

/-- `Matrix4::approx_eq` from src/src/matrix.rs: all sixteen corresponding
field pairs approximately equal, at the rational instantiation. -/
def Matrix4.approx_eq (self other : Matrix4 ℚ) : Bool :=
  Geom.approx_eq self.m11 other.m11 && Geom.approx_eq self.m12 other.m12 &&
  Geom.approx_eq self.m13 other.m13 && Geom.approx_eq self.m14 other.m14 &&
  Geom.approx_eq self.m21 other.m21 && Geom.approx_eq self.m22 other.m22 &&
  Geom.approx_eq self.m23 other.m23 && Geom.approx_eq self.m24 other.m24 &&
  Geom.approx_eq self.m31 other.m31 && Geom.approx_eq self.m32 other.m32 &&
  Geom.approx_eq self.m33 other.m33 && Geom.approx_eq self.m34 other.m34 &&
  Geom.approx_eq self.m41 other.m41 && Geom.approx_eq self.m42 other.m42 &&
  Geom.approx_eq self.m43 other.m43 && Geom.approx_eq self.m44 other.m44

/-- Modelled from the spec: point-level approximate equality (the point
module version is not under src/) is componentwise scalar approximate
equality, per spec §4.1. -/
def Point2D.approx_eq (self other : Point2D ℚ) : Bool :=
  Geom.approx_eq self.x other.x && Geom.approx_eq self.y other.y

/-- The body of the `num_int!` macro's `Round` impl in src/src/num.rs:
`fn round(self) -> $ty { self }`, instantiated at each integer scalar type
(i16, u16, i32, u32, i64, u64, isize, usize). -/
def num_int_round (self : α) : α :=
  self

/-- The body of the `num_int!` macro's `Floor` impl in src/src/num.rs:
`fn floor(self) -> $ty { self }`. -/
def num_int_floor (self : α) : α :=
  self

/-- The body of the `num_int!` macro's `Ceil` impl in src/src/num.rs:
`fn ceil(self) -> $ty { self }`. -/
def num_int_ceil (self : α) : α :=
  self

/-- Modelled from the spec: length.rs is not under src/.  `Length` wraps a
single scalar value with a phantom unit tag (spec §4.2); `get` returns the
raw scalar. -/
structure Length (Unit : Type) (T : Type) where
  get : T
deriving DecidableEq, Repr

/-- Modelled from the spec: `Point2D::to_untyped` strips the unit tags,
preserving only the numeric values (spec §4.3). -/
def Point2D.to_untyped {Unit T : Type} (self : Point2D (Length Unit T)) :
    Point2D T :=
  ⟨self.x.get, self.y.get⟩

/-- Modelled from the spec: `Point2D::from_untyped` tags unitless values
with units (spec §4.3). -/
def Point2D.from_untyped {Unit T : Type} (p : Point2D T) :
    Point2D (Length Unit T) :=
  ⟨⟨p.x⟩, ⟨p.y⟩⟩

/-- Modelled from the spec: `Size2D::to_untyped` strips the unit tags. -/
def Size2D.to_untyped {Unit T : Type} (self : Size2D (Length Unit T)) :
    Size2D T :=
  ⟨self.width.get, self.height.get⟩

/-- Modelled from the spec: `Size2D::from_untyped` tags unitless values
with units. -/
def Size2D.from_untyped {Unit T : Type} (s : Size2D T) :
    Size2D (Length Unit T) :=
  ⟨⟨s.width⟩, ⟨s.height⟩⟩

/-- `Rect::to_untyped` from src/src/rect.rs: drop the units componentwise. -/
def Rect.to_untyped {Unit T : Type} (self : Rect (Length Unit T)) : Rect T :=
  ⟨self.origin.to_untyped, self.size.to_untyped⟩

/-- `Rect::from_untyped` from src/src/rect.rs: tag a unitless rect with
units componentwise. -/
def Rect.from_untyped {Unit T : Type} (r : Rect T) : Rect (Length Unit T) :=
  ⟨Point2D.from_untyped r.origin, Size2D.from_untyped r.size⟩

/-- Modelled from the spec: `Length::cast` converts the underlying scalar
between numeric representations via the fallible conversion `c` (the
`NumCast::from` family is not under src/), returning the empty result when
the value is not representable and preserving the unit tag otherwise. -/
def Length.cast {Unit T0 T1 : Type} (c : T0 → Option T1)
    (self : Length Unit T0) : Option (Length Unit T1) :=
  match c self.get with
  | some v => some ⟨v⟩
  | none => none

/-- Modelled from the spec: `Point2D::cast` casts both coordinates,
returning the empty result if either coordinate is not representable. -/
def Point2D.cast {Unit T0 T1 : Type} (c : T0 → Option T1)
    (self : Point2D (Length Unit T0)) : Option (Point2D (Length Unit T1)) :=
  match self.x.cast c, self.y.cast c with
  | some x, some y => some ⟨x, y⟩
  | _, _ => none

/-- Modelled from the spec: `Size2D::cast` casts both components, returning
the empty result if either component is not representable. -/
def Size2D.cast {Unit T0 T1 : Type} (c : T0 → Option T1)
    (self : Size2D (Length Unit T0)) : Option (Size2D (Length Unit T1)) :=
  match self.width.cast c, self.height.cast c with
  | some w, some h => some ⟨w, h⟩
  | _, _ => none

/-- `Rect::cast` from src/src/rect.rs: cast origin and size; `Some` only
when both casts succeed. -/
def Rect.cast {Unit T0 T1 : Type} (c : T0 → Option T1)
    (self : Rect (Length Unit T0)) : Option (Rect (Length Unit T1)) :=
  match self.origin.cast c, self.size.cast c with
  | some origin, some size => some ⟨origin, size⟩
  | _, _ => none

/-- A concrete fallible numeric conversion for witnesses: a rational is
representable as an integer exactly when its denominator is one, matching
the float-to-integer cast described in spec §7. -/
def ratToInt (q : ℚ) : Option ℤ :=
  if q.den = 1 then some q.num else none

/-- C4: `a.intersects(b)` is true if and only if the four strict
comparisons of the source hold (a.origin.x < b.origin.x + b.size.width,
b.origin.x < a.origin.x + a.size.width, and the same on the y axis);
consequently two rects sharing only a boundary edge do not intersect. -/
theorem intersects_iff_strict (a b : Rect ℤ) :
    (a.intersects b = true ↔
      (a.origin.x < b.origin.x + b.size.width ∧
       b.origin.x < a.origin.x + a.size.width ∧
       a.origin.y < b.origin.y + b.size.height ∧
       b.origin.y < a.origin.y + a.size.height)) ∧
    (a.origin.x + a.size.width = b.origin.x → a.intersects b = false) := by
  constructor
  · simp [Rect.intersects, and_assoc]
  · intro h
    simp [Rect.intersects]
    omega

/-- Witness for the touching-edge consequence of C4: a rect whose right
edge coincides with the other rect's left edge does not intersect it. -/
theorem intersects_iff_strict_witness :
    Rect.intersects (⟨⟨0, 0⟩, ⟨10, 10⟩⟩ : Rect ℤ) ⟨⟨10, 0⟩, ⟨5, 5⟩⟩ = false :=
  (intersects_iff_strict ⟨⟨0, 0⟩, ⟨10, 10⟩⟩ ⟨⟨10, 0⟩, ⟨5, 5⟩⟩).2 rfl

/-- C3: `a.intersection(b)` is none exactly when `a.intersects(b)` is
false; otherwise it is some rect whose origin is the componentwise maximum
of the two origins and whose far corner (origin + size) is the
componentwise minimum of the two far corners; and the concrete scenario
Rect((0,0),(10,20)) ∩ Rect((5,15),(10,10)) = some Rect((5,15),(5,5)). -/
theorem intersection_ok (a b : Rect ℤ) :
    (a.intersection b = none ↔ a.intersects b = false) ∧
    (a.intersects b = true → ∃ r : Rect ℤ, a.intersection b = some r ∧
      r.origin.x = Max.max a.origin.x b.origin.x ∧
      r.origin.y = Max.max a.origin.y b.origin.y ∧
      r.origin.x + r.size.width =
        Min.min (a.origin.x + a.size.width) (b.origin.x + b.size.width) ∧
      r.origin.y + r.size.height =
        Min.min (a.origin.y + a.size.height) (b.origin.y + b.size.height)) ∧
    (Rect.intersection ⟨⟨0, 0⟩, ⟨10, 20⟩⟩ (⟨⟨5, 15⟩, ⟨10, 10⟩⟩ : Rect ℤ) =
      some ⟨⟨5, 15⟩, ⟨5, 5⟩⟩) := by
  refine ⟨?_, ?_, by decide⟩
  · unfold Rect.intersection
    cases h : a.intersects b <;> simp [h]
  · intro h
    refine ⟨⟨⟨ max a.min_x b.min_x, max a.min_y b.min_y⟩,
      ⟨ min a.max_x b.max_x - max a.min_x b.min_x,
        min a.max_y b.max_y - max a.min_y b.min_y⟩⟩, ?_, ?_, ?_, ?_, ?_⟩
    · simp [Rect.intersection, h]
    · simp [max_eq_sup, Rect.min_x]
    · simp [max_eq_sup, Rect.min_y]
    · simp only [min_eq_inf, max_eq_sup, Rect.min_x, Rect.max_x]
      omega
    · simp only [min_eq_inf, max_eq_sup, Rect.min_y, Rect.max_y]
      omega

/-- Witness for the intersecting case of C3 at the concrete scenario. -/
theorem intersection_ok_witness :
    ∃ r : Rect ℤ,
      Rect.intersection ⟨⟨0, 0⟩, ⟨10, 20⟩⟩ (⟨⟨5, 15⟩, ⟨10, 10⟩⟩ : Rect ℤ) =
          some r ∧
      r.origin.x = Max.max 0 5 ∧ r.origin.y = Max.max 0 15 ∧
      r.origin.x + r.size.width = Min.min (0 + 10) (5 + 10) ∧
      r.origin.y + r.size.height = Min.min (0 + 20) (15 + 10) :=
  (intersection_ok ⟨⟨0, 0⟩, ⟨10, 20⟩⟩ ⟨⟨5, 15⟩, ⟨10, 10⟩⟩).2.1 rfl

/-- C5: `a.union(b)` always has origin the componentwise minimum of the two
origins and far corner (origin + size) the componentwise maximum of the two
far corners; and the concrete scenario Rect((0,0),(50,40)) ∪
Rect((20,-15),(250,200)) = Rect((0,-15),(270,200)). -/
theorem union_ok (a b : Rect ℤ) :
    ((a.union b).origin.x = Min.min a.origin.x b.origin.x ∧
     (a.union b).origin.y = Min.min a.origin.y b.origin.y ∧
     (a.union b).origin.x + (a.union b).size.width =
       Max.max (a.origin.x + a.size.width) (b.origin.x + b.size.width) ∧
     (a.union b).origin.y + (a.union b).size.height =
       Max.max (a.origin.y + a.size.height) (b.origin.y + b.size.height)) ∧
    (Rect.union ⟨⟨0, 0⟩, ⟨50, 40⟩⟩ (⟨⟨20, -15⟩, ⟨250, 200⟩⟩ : Rect ℤ) =
      ⟨⟨0, -15⟩, ⟨270, 200⟩⟩) := by
  refine ⟨⟨?_, ?_, ?_, ?_⟩, by decide⟩
  · simp [Rect.union, min_eq_inf, max_eq_sup, Rect.min_x, Rect.min_y]
  · simp [Rect.union, min_eq_inf, max_eq_sup, Rect.min_x, Rect.min_y]
  · simp only [Rect.union, min_eq_inf, max_eq_sup, Rect.min_x, Rect.min_y,
      Rect.max_x, Rect.max_y]
    omega
  · simp only [Rect.union, min_eq_inf, max_eq_sup, Rect.min_x, Rect.min_y,
      Rect.max_x, Rect.max_y]
    omega

/-- C6: multiplying by the identity matrix on either side returns the other
matrix unchanged, with exact field-for-field equality. -/
theorem identity_mul_exact (m : Matrix4 ℚ) :
    (identity : Matrix4 ℚ).mul m = m ∧ m.mul (identity : Matrix4 ℚ) = m := by
  cases m
  constructor <;> simp [Matrix4.mul, identity]

/-- C1 (amended): `m.mul(n)` composes in the opposite of the claimed order:
when n embeds a 2D affine transform (its m13, m23, m43, m14, m24 entries
are zero and its m44 entry is one), `m.mul(n).transform_point(p)` applies
n's transform first and then m's, exactly. -/
theorem mul_transform_point (m n : Matrix4 ℚ) (p : Point2D ℚ)
    (h13 : n.m13 = 0) (h23 : n.m23 = 0) (h43 : n.m43 = 0)
    (h14 : n.m14 = 0) (h24 : n.m24 = 0) (h44 : n.m44 = 1) :
    (m.mul n).transform_point p = m.transform_point (n.transform_point p) := by
  cases m; cases n; cases p
  simp only at h13 h23 h43 h14 h24 h44
  subst h13 h23 h43 h14 h24 h44
  simp only [Matrix4.mul, Matrix4.transform_point, Point2D.mk.injEq]
  constructor <;> ring

/-- Witness for the amended C1 at a full 16-entry matrix, a scale matrix
and a concrete point. -/
theorem mul_transform_point_witness :
    (Matrix4.mul
        (⟨1, 2, 3, 4, 5, 6, 7, 8, 9, 10, 11, 12, 13, 14, 15, 16⟩ : Matrix4 ℚ)
        (Matrix4.create_scale 2 3 4)).transform_point ⟨5, 7⟩ =
      (⟨1, 2, 3, 4, 5, 6, 7, 8, 9, 10, 11, 12, 13, 14, 15, 16⟩ :
          Matrix4 ℚ).transform_point
        ((Matrix4.create_scale (2 : ℚ) 3 4).transform_point ⟨5, 7⟩) :=
  mul_transform_point _ _ _ rfl rfl rfl rfl rfl rfl

/-- Counterexample to C1 as stated: with m the translation by (1,0,0), n
the scale by (2,2,1) and p the origin, `m.mul(n).transform_point(p)` is
(1,0) while applying m's transform and then n's gives (2,0), which are not
approximately equal. -/
theorem mul_transform_point_counterexample :
    Point2D.approx_eq
        ((Matrix4.mul (Matrix4.create_translation (1 : ℚ) 0 0)
            (Matrix4.create_scale 2 2 1)).transform_point ⟨0, 0⟩)
        ((Matrix4.create_scale (2 : ℚ) 2 1).transform_point
          ((Matrix4.create_translation (1 : ℚ) 0 0).transform_point ⟨0, 0⟩)) =
      false := by
  norm_num [Matrix4.create_translation, Matrix4.create_scale, Matrix4.mul,
    Matrix4.transform_point, Point2D.approx_eq, approx_eq, abs_sub_lt_iff]

/-- C2: ortho(0, 1, 0.1, 1, -1, 1) is approximately equal to the matrix
with rows (2,0,0,0), (0,2.2222222,0,0), (0,0,-1,0), (-1,-1.2222222,0,1). -/
theorem ortho_concrete :
    (ortho (0 : ℚ) 1 (1 / 10) 1 (-1) 1).approx_eq
        ⟨2, 0, 0, 0,
         0, 22222222 / 10000000, 0, 0,
         0, 0, -1, 0,
         -1, -(12222222 / 10000000), 0, 1⟩ = true := by
  norm_num [ortho, Matrix4.approx_eq, approx_eq, abs_sub_lt_iff, abs_lt]

/-- C10: `m.scale(x, y, z)` multiplies m11 by x, m22 by y, m33 by z and
leaves the other thirteen fields exactly unchanged; and it is not matrix
composition with create_scale(x, y, z), as the all-ones matrix shows. -/
theorem scale_diag_only (m : Matrix4 ℚ) (x y z : ℚ) :
    (m.scale x y z).m11 = m.m11 * x ∧
    (m.scale x y z).m22 = m.m22 * y ∧
    (m.scale x y z).m33 = m.m33 * z ∧
    (m.scale x y z).m12 = m.m12 ∧ (m.scale x y z).m13 = m.m13 ∧
    (m.scale x y z).m14 = m.m14 ∧ (m.scale x y z).m21 = m.m21 ∧
    (m.scale x y z).m23 = m.m23 ∧ (m.scale x y z).m24 = m.m24 ∧
    (m.scale x y z).m31 = m.m31 ∧ (m.scale x y z).m32 = m.m32 ∧
    (m.scale x y z).m34 = m.m34 ∧ (m.scale x y z).m41 = m.m41 ∧
    (m.scale x y z).m42 = m.m42 ∧ (m.scale x y z).m43 = m.m43 ∧
    (m.scale x y z).m44 = m.m44 ∧
    ¬ Matrix4.scale
        (⟨1, 1, 1, 1, 1, 1, 1, 1, 1, 1, 1, 1, 1, 1, 1, 1⟩ : Matrix4 ℚ) 2 1 1 =
      Matrix4.mul ⟨1, 1, 1, 1, 1, 1, 1, 1, 1, 1, 1, 1, 1, 1, 1, 1⟩
        (Matrix4.create_scale 2 1 1) :=
  ⟨rfl, rfl, rfl, rfl, rfl, rfl, rfl, rfl, rfl, rfl, rfl, rfl, rfl, rfl, rfl,
   rfl,
   by norm_num [Matrix4.scale, Matrix4.mul, Matrix4.create_scale,
     Matrix4.mk.injEq]⟩

/-- C9: the round, floor and ceil implementations produced by the num_int
macro are the identity function on every integer scalar type; i16, i32,
i64 and isize values are embedded as integers, u16, u32, u64 and usize
values as naturals. -/
theorem num_int_round_floor_ceil_id :
    ∀ (x : ℤ) (y : ℕ),
      num_int_round x = x ∧ num_int_floor x = x ∧ num_int_ceil x = x ∧
      num_int_round y = y ∧ num_int_floor y = y ∧ num_int_ceil y = y :=
  fun _ _ => ⟨rfl, rfl, rfl, rfl, rfl, rfl⟩

/-- C7: stripping the unit tags of a unit-tagged rect and re-attaching them
is a round trip that changes no field value. -/
theorem rect_untyped_round_trip {Unit T : Type} (r : Rect (Length Unit T)) :
    Rect.from_untyped r.to_untyped = r :=
  rfl

/-- C8: `r.cast(c)` is none exactly when the cast of the origin or of the
size is not representable, and otherwise is some of the componentwise-cast
rect with the same unit tag. -/
theorem rect_cast_ok {Unit T0 T1 : Type} (c : T0 → Option T1)
    (r : Rect (Length Unit T0)) :
    (r.cast c = none ↔ (r.origin.cast c = none ∨ r.size.cast c = none)) ∧
    (∀ o s, r.origin.cast c = some o → r.size.cast c = some s →
      r.cast c = some ⟨o, s⟩) := by
  constructor
  · unfold Rect.cast
    cases ho : r.origin.cast c <;> cases hs : r.size.cast c <;> simp
  · intro o s ho hs
    unfold Rect.cast
    rw [ho, hs]

/-- Witness for the representable case of C8, casting a rational rect whose
components are all whole numbers to an integer rect. -/
theorem rect_cast_ok_witness :
    Rect.cast ratToInt
        (⟨⟨⟨(3 : ℚ)⟩, ⟨4⟩⟩, ⟨⟨5⟩, ⟨6⟩⟩⟩ : Rect (Length Unit ℚ)) =
      some ⟨⟨⟨3⟩, ⟨4⟩⟩, ⟨⟨5⟩, ⟨6⟩⟩⟩ :=
  (rect_cast_ok ratToInt _).2 ⟨⟨3⟩, ⟨4⟩⟩ ⟨⟨5⟩, ⟨6⟩⟩ (by decide) (by decide)

end Geom
